import Mathlib

/-!
Verification of the conditional-dropdown option store, hierarchy resolver,
selection-cascade engine and option-authoring service of the FormFlow
repository (src/ConditionalDropdown.tsx), as a shallow embedding.

Selections (the snapshot) are an association list from dropdown id to chosen
value, mirroring the JavaScript record: an absent key reads as the empty
string, exactly as the component treats undefined and the empty string alike.
-/

structure DropdownOption where
  value : String
  label : String
deriving DecidableEq, Repr

structure DropdownConfig where
  id : String
  label : String
  options : List DropdownOption
  dependsOn : Option String
  creatable : Bool
deriving DecidableEq, Repr

structure DropdownRelation where
  parent : String
  parentValue : String
  child : String
  options : List DropdownOption
deriving DecidableEq, Repr

structure DataStore where
  options : List (String × List DropdownOption)
  relations : List DropdownRelation
deriving DecidableEq, Repr

abbrev Selections := List (String × String)

/-- The whitespace trim of the JavaScript string primitive, modelled as a
structural scan over the character list: leading and trailing whitespace
characters are removed. -/
def trimChars (l : List Char) : List Char :=
  ((l.dropWhile Char.isWhitespace).reverse.dropWhile Char.isWhitespace).reverse

def strTrim (s : String) : String := String.mk (trimChars s.toList)

/-- The lower-casing string primitive, as a character-wise map. -/
def strToLower (s : String) : String := String.mk (s.toList.map Char.toLower)

def splitLinesAux : List Char → List Char → List String
  | [], acc => [String.mk acc.reverse]
  | c :: cs, acc =>
    if c == '\n' then String.mk acc.reverse :: splitLinesAux cs []
    else splitLinesAux cs (c :: acc)

/-- The split of a string on newline characters, as the JavaScript split on
the newline separator: the empty string yields one empty piece, and a
trailing newline yields a trailing empty piece. -/
def splitLines (s : String) : List String := splitLinesAux s.toList []

/-- Reading a key of the selections record: absent keys read as the empty
string, matching the falsy treatment of undefined in the component. -/
def getSel : Selections → String → String
  | [], _ => ""
  | p :: ps, k => if p.1 == k then p.2 else getSel ps k

/-- Writing a key of the selections record, as the object spread does:
replace the value in place when the key exists, append it otherwise. -/
def setSel : Selections → String → String → Selections
  | [], k, v => [(k, v)]
  | p :: ps, k, v => if p.1 == k then (k, v) :: ps else p :: setSel ps k v

/-- The forEach loop that writes the empty string over a list of ids. -/
def clearSelections (sel : Selections) (ids : List String) : Selections :=
  ids.foldl (fun s i => setSel s i "") sel

def lookupOptions : List (String × List DropdownOption) → String → Option (List DropdownOption)
  | [], _ => none
  | p :: ps, k => if p.1 == k then some p.2 else lookupOptions ps k

def setOptionsKey : List (String × List DropdownOption) → String → List DropdownOption →
    List (String × List DropdownOption)
  | [], k, v => [(k, v)]
  | p :: ps, k, v => if p.1 == k then (k, v) :: ps else p :: setOptionsKey ps k v

/-- One step of the whitespace-collapsing scan: the Boolean records whether
the previous character was part of a whitespace run already replaced. -/
def collapseWsStep (acc : String × Bool) (c : Char) : String × Bool :=
  if c.isWhitespace then
    if acc.2 then acc else (acc.1.push '-', true)
  else (acc.1.push c, false)

/-- The derivation of an option value from its label: every maximal run of
whitespace is replaced by a single dash, case preserved, as in
label.replace of the whitespace-run pattern with a dash. -/
def collapseWs (s : String) : String :=
  (s.toList.foldl collapseWsStep ("", false)).1

def concatMap {α β : Type} (f : α → List β) : List α → List β
  | [] => []
  | a :: as => f a ++ concatMap f as

/-- findDependentDropdowns of the component: direct children first, then the
recursion on each child appended in order. The source recursion carries no
visited set and no depth bound; the fuel argument makes the unfoldings of
that recursion explicit, so divergence shows as failure to stabilize. -/
def findDependentDropdowns (config : List DropdownConfig) : Nat → String → List String
  | 0, _ => []
  | Nat.succ fuel, parentId =>
    let direct := (config.filter (fun d => d.dependsOn == some parentId)).map (fun d => d.id)
    direct ++ concatMap (findDependentDropdowns config fuel) direct

/-- The option list for a root dropdown: the stored entry when the key is
present (a stored empty list is returned as such, since an empty array is
truthy), the config seed options otherwise. -/
def rootOptsFor (store : DataStore) (d : DropdownConfig) : List DropdownOption :=
  match lookupOptions store.options d.id with
  | some os => os
  | none => d.options

/-- getDropdownOptions of the component: root dropdowns read their root
bucket; dependent dropdowns return nothing while the parent is unselected,
and otherwise the options of the unique matching relation, or nothing when
no relation exists yet. -/
def getDropdownOptions (store : DataStore) (sel : Selections) (d : DropdownConfig) :
    List DropdownOption :=
  match d.dependsOn with
  | none => rootOptsFor store d
  | some p =>
    let parentValue := getSel sel p
    if parentValue == "" then []
    else
      match store.relations.find? (fun r =>
          r.parent == p && r.parentValue == parentValue && r.child == d.id) with
      | some r => r.options
      | none => []

/-- handleSelection of the component, restricted to its effect on the
selection snapshot: the sentinel value opens the authoring flow and leaves
the snapshot untouched; any other value is written to the dropdown and every
dependent dropdown id is cleared to the empty string. No store is consulted:
the function performs no membership validation at all. -/
def handleSelection (config : List DropdownConfig) (fuel : Nat) (sel : Selections)
    (dropdownId value : String) : Selections :=
  if value == "__add_new__" then sel
  else
    let newSel := setSel sel dropdownId value
    clearSelections newSel (findDependentDropdowns config fuel dropdownId)

/-- The initialize-defaults effect step for one config entry: dependent
dropdowns are skipped; a root dropdown with a non-empty resolved option list
selects the first option value. -/
def initStep (store : DataStore) (acc : Selections) (d : DropdownConfig) : Selections :=
  match d.dependsOn with
  | none =>
    match rootOptsFor store d with
    | [] => acc
    | o :: _ => setSel acc d.id o.value
  | some _ => acc

/-- The initialize-defaults effect: a no-op once the selections record has
any key; otherwise the default selections built over the config in order. -/
def initializeDefaults (config : List DropdownConfig) (store : DataStore)
    (sel : Selections) : Selections :=
  if sel.length != 0 then sel
  else config.foldl (initStep store) []

def appendRootOption (store : DataStore) (activeId : String) (o : DropdownOption) : DataStore :=
  match lookupOptions store.options activeId with
  | some os => { store with options := setOptionsKey store.options activeId (os ++ [o]) }
  | none => { store with options := setOptionsKey store.options activeId [o] }

/-- findIndex followed by a push into that relation: only the first matching
relation entry receives the new option. -/
def appendToFirstRelation : List DropdownRelation → String → String → String →
    DropdownOption → List DropdownRelation
  | [], _, _, _, _ => []
  | r :: rs, parent, pv, child, o =>
    if r.parent == parent && r.parentValue == pv && r.child == child then
      { r with options := r.options ++ [o] } :: rs
    else r :: appendToFirstRelation rs parent pv child o

def appendRelationOption (store : DataStore) (parent pv child : String)
    (o : DropdownOption) : DataStore :=
  if store.relations.any (fun r =>
      r.parent == parent && r.parentValue == pv && r.child == child) then
    { store with relations := appendToFirstRelation store.relations parent pv child o }
  else
    { store with relations := store.relations ++ [⟨parent, pv, child, [o]⟩] }

/-- The child-context creation loop of the component: for every direct child
of the active dropdown an empty relation is pushed, with no check whether a
relation for that triple already exists. -/
def appendEmptyChildRelations (config : List DropdownConfig) (store : DataStore)
    (pid pv : String) : DataStore :=
  let childRels : List DropdownRelation :=
    (config.filter (fun d => d.dependsOn == some pid)).map
      (fun c => ⟨pid, pv, c.id, []⟩)
  { store with relations := store.relations ++ childRels }

/-- A rank function witnessing that the dependsOn relation is a forest: every
dependent dropdown ranks strictly below its parent. -/
def rankOkB (config : List DropdownConfig) (rank : String → Nat) : Bool :=
  config.all (fun c =>
    match c.dependsOn with
    | some p => decide (rank c.id < rank p)
    | none => true)

inductive AddError where
  | guardFailed
  | alreadyExists
  | noParentContext
deriving DecidableEq, Repr

structure SingleAddResult where
  store : DataStore
  sel : Selections
  err : Option AddError
deriving DecidableEq, Repr

/-- saveNewOption of the component: guard on blank input and unknown id;
case-insensitive duplicate check on the derived value only, against the
resolved options of the current context; on success the option is appended,
empty child relations are pushed unconditionally, and the new value is
selected with all dependents cleared. -/
def saveNewOption (config : List DropdownConfig) (fuel : Nat) (store : DataStore)
    (sel : Selections) (activeId newOptionName : String) : SingleAddResult :=
  if strTrim newOptionName == "" then ⟨store, sel, some AddError.guardFailed⟩
  else
    match config.find? (fun d => d.id == activeId) with
    | none => ⟨store, sel, some AddError.guardFailed⟩
    | some dropdown =>
      let label := strTrim newOptionName
      let value := collapseWs label
      let existingOptions := getDropdownOptions store sel dropdown
      if existingOptions.any (fun opt => strToLower opt.value == strToLower value) then
        ⟨store, sel, some AddError.alreadyExists⟩
      else
        match dropdown.dependsOn with
        | none =>
          let s1 := appendRootOption store activeId { value := value, label := label }
          let s2 := appendEmptyChildRelations config s1 activeId value
          let sel1 := setSel sel activeId value
          let sel2 := clearSelections sel1 (findDependentDropdowns config fuel activeId)
          ⟨s2, sel2, none⟩
        | some parent =>
          let pv := getSel sel parent
          if pv == "" then ⟨store, sel, some AddError.noParentContext⟩
          else
            let s1 := appendRelationOption store parent pv activeId
              { value := value, label := label }
            let s2 := appendEmptyChildRelations config s1 activeId value
            let sel1 := setSel sel activeId value
            let sel2 := clearSelections sel1 (findDependentDropdowns config fuel activeId)
            ⟨s2, sel2, none⟩

inductive Notice where
  | emptyImport
  | noNewOptions
  | imported
deriving DecidableEq, Repr

structure BulkResult where
  store : DataStore
  sel : Selections
  notice : Option Notice
  added : List String
  duplicates : List String
deriving DecidableEq, Repr

/-- The line splitting of the bulk import: split on newline, trim each line,
keep only non-empty lines. -/
def importLines (text : String) : List String :=
  ((splitLines text).map strTrim).filter (fun l => l.length != 0)

/-- The case-insensitive duplicate check of the bulk import loop, against a
fixed option list: derived value or label matches ignoring case. -/
def dupPred (existing : List DropdownOption) (line : String) : Bool :=
  existing.any (fun opt =>
    strToLower opt.value == strToLower (collapseWs (strTrim line)) ||
    strToLower opt.label == strToLower (strTrim line))

/-- One iteration of the bulk import loop. The duplicate check reads the
existing list captured before the loop; accepted lines mutate only the
accumulated new store, so the check never sees earlier lines of the batch. -/
def bulkStep (config : List DropdownConfig) (dropdown : DropdownConfig) (sel : Selections)
    (existing : List DropdownOption) :
    DataStore × List String × List String → String → DataStore × List String × List String
  | (s, a, dps), line =>
    let label := strTrim line
    let value := collapseWs label
    if dupPred existing line then (s, a, dps ++ [label])
    else
      match dropdown.dependsOn with
      | none =>
        let s1 := appendRootOption s dropdown.id { value := value, label := label }
        let s2 := appendEmptyChildRelations config s1 dropdown.id value
        (s2, a ++ [label], dps)
      | some parent =>
        let pv := getSel sel parent
        if pv == "" then (s, a, dps)
        else
          let s1 := appendRelationOption s parent pv dropdown.id
            { value := value, label := label }
          let s2 := appendEmptyChildRelations config s1 dropdown.id value
          (s2, a ++ [label], dps)

/-- handleImportOptions of the component: blank text and unknown id return
silently with no notice; otherwise the lines are processed in order against
the pre-batch option list; when nothing was added the store is left
untouched and a no-new-options notice is emitted, otherwise the new store is
committed. The selection snapshot is never written. -/
def handleImportOptions (config : List DropdownConfig) (store : DataStore) (sel : Selections)
    (activeId text : String) : BulkResult :=
  if strTrim text == "" then ⟨store, sel, none, [], []⟩
  else
    match config.find? (fun d => d.id == activeId) with
    | none => ⟨store, sel, none, [], []⟩
    | some dropdown =>
      let lines := importLines text
      if lines.length == 0 then ⟨store, sel, some Notice.emptyImport, [], []⟩
      else
        let existing := getDropdownOptions store sel dropdown
        let r := lines.foldl (bulkStep config dropdown sel existing) (store, [], [])
        if r.2.1.length == 0 then ⟨store, sel, some Notice.noNewOptions, [], r.2.2⟩
        else ⟨r.1, sel, some Notice.imported, r.2.1, r.2.2⟩

/-- Whether a line of a bulk import batch is accepted: not a duplicate of the
pre-batch option list, and the context is authorable (root dropdown, or
parent selected). -/
def addPredB (dropdown : DropdownConfig) (sel : Selections) (existing : List DropdownOption)
    (line : String) : Bool :=
  !(dupPred existing line) &&
    (match dropdown.dependsOn with
     | none => true
     | some parent => getSel sel parent != "")

/-- A deliberately cyclic configuration: a single dropdown that depends on
itself, exercising the missing cycle guard of the descendant traversal. -/
def cycCfg : List DropdownConfig := [⟨"a", "A", [], some "a", false⟩]

theorem getSel_setSel_self (s : Selections) (k v : String) : getSel (setSel s k v) k = v := by
  induction s with
  | nil => simp [setSel, getSel]
  | cons p ps ih =>
    by_cases h : p.1 == k
    · simp [setSel, h, getSel]
    · simp [setSel, h, getSel, ih]

theorem getSel_setSel_ne (s : Selections) (k v k' : String) (h : k' ≠ k) :
    getSel (setSel s k v) k' = getSel s k' := by
  induction s with
  | nil =>
    have hk : (k == k') = false := beq_eq_false_iff_ne.mpr (fun hkk => h hkk.symm)
    simp [setSel, getSel, hk]
  | cons p ps ih =>
    by_cases hp : p.1 == k
    · have hpk : p.1 = k := beq_iff_eq.mp hp
      have hk : (k == k') = false := beq_eq_false_iff_ne.mpr (fun hkk => h hkk.symm)
      have hk2 : (p.1 == k') = false := beq_eq_false_iff_ne.mpr (fun hkk => h (hpk ▸ hkk).symm)
      simp [setSel, hp, getSel, hk, hk2]
    · simp [setSel, hp, getSel, ih]

theorem getSel_clearSelections (ids : List String) (s : Selections) (k : String) :
    getSel (clearSelections s ids) k = if k ∈ ids then "" else getSel s k := by
  induction ids generalizing s with
  | nil => simp [clearSelections]
  | cons i is ih =>
    show getSel (clearSelections (setSel s i "") is) k = _
    rw [ih]
    by_cases hmem : k ∈ is
    · simp [hmem]
    · by_cases hki : k = i
      · subst hki
        simp [hmem, getSel_setSel_self]
      · simp [hmem, hki, getSel_setSel_ne s i "" k hki]

theorem rank_lt_of_rankOkB {config : List DropdownConfig} {rank : String → Nat}
    (hr : rankOkB config rank = true) {c : DropdownConfig} (hc : c ∈ config)
    {p : String} (hp : c.dependsOn = some p) : rank c.id < rank p := by
  have h := (List.all_eq_true.mp hr) c hc
  rw [hp] at h
  exact of_decide_eq_true h

theorem mem_concatMap {α β : Type} (f : α → List β) (l : List α) (b : β) :
    b ∈ concatMap f l ↔ ∃ a, a ∈ l ∧ b ∈ f a := by
  induction l with
  | nil => simp [concatMap]
  | cons x xs ih =>
    simp only [concatMap, List.mem_append, ih, List.mem_cons]
    constructor
    · rintro (h | ⟨a, ha, hb⟩)
      · exact ⟨x, Or.inl rfl, h⟩
      · exact ⟨a, Or.inr ha, hb⟩
    · rintro ⟨a, (rfl | ha), hb⟩
      · exact Or.inl hb
      · exact Or.inr ⟨a, ha, hb⟩

theorem concatMap_congr {α β : Type} {f g : α → List β} {l : List α}
    (h : ∀ a ∈ l, f a = g a) : concatMap f l = concatMap g l := by
  induction l with
  | nil => rfl
  | cons x xs ih =>
    simp only [concatMap]
    rw [h x (by simp), ih (fun a ha => h a (by simp [ha]))]

theorem rank_lt_of_mem_fdd {config : List DropdownConfig} {rank : String → Nat}
    (hr : rankOkB config rank = true) :
    ∀ (fuel : Nat) (p q : String), q ∈ findDependentDropdowns config fuel p →
      rank q < rank p := by
  intro fuel
  induction fuel with
  | zero => intro p q h; simp [findDependentDropdowns] at h
  | succ n ih =>
    intro p q h
    simp only [findDependentDropdowns, List.mem_append] at h
    cases h with
    | inl h =>
      obtain ⟨c, hc, rfl⟩ := List.mem_map.mp h
      obtain ⟨hcmem, hdep⟩ := List.mem_filter.mp hc
      exact rank_lt_of_rankOkB hr hcmem (beq_iff_eq.mp hdep)
    | inr h =>
      obtain ⟨a, ha, hq⟩ := (mem_concatMap _ _ _).mp h
      obtain ⟨c, hc, rfl⟩ := List.mem_map.mp ha
      obtain ⟨hcmem, hdep⟩ := List.mem_filter.mp hc
      have h1 : rank c.id < rank p := rank_lt_of_rankOkB hr hcmem (beq_iff_eq.mp hdep)
      exact lt_trans (ih _ _ hq) h1

theorem not_mem_fdd_self {config : List DropdownConfig} {rank : String → Nat}
    (hr : rankOkB config rank = true) (fuel : Nat) (p : String) :
    p ∉ findDependentDropdowns config fuel p := by
  intro h
  exact absurd (rank_lt_of_mem_fdd hr fuel p p h) (lt_irrefl _)

theorem fdd_eq_nil_of_rank_zero {config : List DropdownConfig} {rank : String → Nat}
    (hr : rankOkB config rank = true) {p : String} (hp : rank p = 0) :
    ∀ n, findDependentDropdowns config n p = [] := by
  intro n
  cases n with
  | zero => rfl
  | succ m =>
    have hfilter : config.filter (fun d => d.dependsOn == some p) = [] := by
      rw [List.filter_eq_nil_iff]
      intro c hc hbeq
      have := rank_lt_of_rankOkB hr hc (beq_iff_eq.mp hbeq)
      omega
    simp [findDependentDropdowns, hfilter, concatMap]

theorem fdd_canon {config : List DropdownConfig} {rank : String → Nat}
    (hr : rankOkB config rank = true) :
    ∀ (k : Nat) (p : String), rank p = k → ∀ n, k ≤ n →
      findDependentDropdowns config n p = findDependentDropdowns config k p := by
  intro k
  induction k using Nat.strong_induction_on with
  | _ k ih =>
    intro p hp n hn
    cases k with
    | zero => rw [fdd_eq_nil_of_rank_zero hr hp, fdd_eq_nil_of_rank_zero hr hp]
    | succ k' =>
      cases n with
      | zero => omega
      | succ n' =>
        simp only [findDependentDropdowns]
        congr 1
        apply concatMap_congr
        intro q hq
        obtain ⟨c, hc, rfl⟩ := List.mem_map.mp hq
        obtain ⟨hcmem, hdep⟩ := List.mem_filter.mp hc
        have hlt : rank c.id < rank p := rank_lt_of_rankOkB hr hcmem (beq_iff_eq.mp hdep)
        rw [hp] at hlt
        have h1 := ih (rank c.id) (by omega) c.id rfl n' (by omega)
        have h2 := ih (rank c.id) (by omega) c.id rfl k' (by omega)
        rw [h1, h2]

theorem fdd_cyc_succ (n : Nat) :
    findDependentDropdowns cycCfg (n + 1) "a" = "a" :: findDependentDropdowns cycCfg n "a" := by
  show "a" :: (findDependentDropdowns cycCfg n "a" ++ []) = _
  rw [List.append_nil]

theorem fdd_cyc_length (n : Nat) : (findDependentDropdowns cycCfg n "a").length = n := by
  induction n with
  | zero => rfl
  | succ m ih => rw [fdd_cyc_succ]; simp [ih]

theorem bulk_foldl_proj (config : List DropdownConfig) (dropdown : DropdownConfig)
    (sel : Selections) (existing : List DropdownOption) :
    ∀ (lines : List String) (s : DataStore) (a dps : List String),
      (lines.foldl (bulkStep config dropdown sel existing) (s, a, dps)).2.1
          = a ++ (lines.filter (addPredB dropdown sel existing)).map strTrim ∧
      (lines.foldl (bulkStep config dropdown sel existing) (s, a, dps)).2.2
          = dps ++ (lines.filter (dupPred existing)).map strTrim := by
  intro lines
  induction lines with
  | nil => intro s a dps; constructor <;> simp
  | cons line rest ih =>
    intro s a dps
    rw [List.foldl_cons]
    cases hdup : dupPred existing line with
    | true =>
      have hstep : bulkStep config dropdown sel existing (s, a, dps) line
          = (s, a, dps ++ [strTrim line]) := by
        simp [bulkStep, hdup]
      have had : addPredB dropdown sel existing line = false := by
        simp [addPredB, hdup]
      rw [hstep]
      obtain ⟨ih1, ih2⟩ := ih s a (dps ++ [strTrim line])
      constructor
      · rw [ih1, List.filter_cons, had]; simp
      · rw [ih2, List.filter_cons, hdup]; simp
    | false =>
      cases hdep : dropdown.dependsOn with
      | none =>
        have hstep : bulkStep config dropdown sel existing (s, a, dps) line
            = (appendEmptyChildRelations config
                (appendRootOption s dropdown.id
                  ⟨collapseWs (strTrim line), strTrim line⟩)
                dropdown.id (collapseWs (strTrim line)),
               a ++ [strTrim line], dps) := by
          simp [bulkStep, hdup, hdep]
        have had : addPredB dropdown sel existing line = true := by
          simp [addPredB, hdup, hdep]
        rw [hstep]
        obtain ⟨ih1, ih2⟩ := ih _ (a ++ [strTrim line]) dps
        constructor
        · rw [ih1, List.filter_cons, had]; simp
        · rw [ih2, List.filter_cons, hdup]; simp
      | some parent =>
        cases hpv : (getSel sel parent == "") with
        | true =>
          have hstep : bulkStep config dropdown sel existing (s, a, dps) line
              = (s, a, dps) := by
            simp [bulkStep, hdup, hdep, hpv]
          have had : addPredB dropdown sel existing line = false := by
            simp [addPredB, bne, hdup, hdep, hpv]
          rw [hstep]
          obtain ⟨ih1, ih2⟩ := ih s a dps
          constructor
          · rw [ih1, List.filter_cons, had]; simp
          · rw [ih2, List.filter_cons, hdup]; simp
        | false =>
          have hstep : bulkStep config dropdown sel existing (s, a, dps) line
              = (appendEmptyChildRelations config
                  (appendRelationOption s parent (getSel sel parent) dropdown.id
                    ⟨collapseWs (strTrim line), strTrim line⟩)
                  dropdown.id (collapseWs (strTrim line)),
                 a ++ [strTrim line], dps) := by
            simp [bulkStep, hdup, hdep, hpv]
          have had : addPredB dropdown sel existing line = true := by
            simp [addPredB, bne, hdup, hdep, hpv]
          rw [hstep]
          obtain ⟨ih1, ih2⟩ := ih _ (a ++ [strTrim line]) dps
          constructor
          · rw [ih1, List.filter_cons, had]; simp
          · rw [ih2, List.filter_cons, hdup]; simp

theorem getSel_foldl_initStep_of_skip (store : DataStore) (k : String) :
    ∀ (cfg : List DropdownConfig) (acc : Selections),
      (∀ d ∈ cfg, d.id = k → d.dependsOn ≠ none ∨ rootOptsFor store d = []) →
      getSel (cfg.foldl (initStep store) acc) k = getSel acc k := by
  intro cfg
  induction cfg with
  | nil => intro acc _; rfl
  | cons c cs ih =>
    intro acc h
    rw [List.foldl_cons, ih _ (fun d hd hdk => h d (by simp [hd]) hdk)]
    by_cases hck : c.id = k
    · cases hdep : c.dependsOn with
      | none =>
        cases h c (by simp) hck with
        | inl h1 => exact absurd hdep h1
        | inr h2 => simp [initStep, hdep, h2]
      | some p => simp [initStep, hdep]
    · cases hdep : c.dependsOn with
      | none =>
        cases hro : rootOptsFor store c with
        | nil => simp [initStep, hdep, hro]
        | cons o os =>
          simp [initStep, hdep, hro,
            getSel_setSel_ne acc c.id o.value k (fun hh => hck hh.symm)]
      | some p => simp [initStep, hdep]

theorem getSel_foldl_initStep_set (store : DataStore) :
    ∀ (cfg : List DropdownConfig) (acc : Selections) (d : DropdownConfig)
      (o : DropdownOption) (os : List DropdownOption),
      d ∈ cfg → d.dependsOn = none → rootOptsFor store d = o :: os →
      (cfg.map (fun x => x.id)).Nodup →
      getSel (cfg.foldl (initStep store) acc) d.id = o.value := by
  intro cfg
  induction cfg with
  | nil => intro acc d o os hd; simp at hd
  | cons c cs ih =>
    intro acc d o os hd hdep hro hnodup
    rw [List.foldl_cons]
    simp only [List.map_cons] at hnodup
    have hnd := List.nodup_cons.mp hnodup
    rcases List.mem_cons.mp hd with rfl | hdcs
    · rw [getSel_foldl_initStep_of_skip store d.id cs _ ?hskip]
      · simp [initStep, hdep, hro, getSel_setSel_self]
      case hskip =>
        intro d' hd' hd'id
        exact absurd (List.mem_map.mpr ⟨d', hd', hd'id⟩) hnd.1
    · exact ih _ d o os hdcs hdep hro hnd.2

/-- Claim C5: for every dependent dropdown whose parent entry in the snapshot
is empty (absent keys read as empty), getDropdownOptions returns the empty
sequence, for every store, hence independently of any stored relations. -/
theorem claim_c5_parent_gating (store : DataStore) (sel : Selections) (d : DropdownConfig)
    (p : String) (hdep : d.dependsOn = some p) (hsel : getSel sel p = "") :
    getDropdownOptions store sel d = [] := by
  simp [getDropdownOptions, hdep, hsel]

theorem claim_c5_parent_gating_witness :
    getDropdownOptions ⟨[], [⟨"a", "x", "b", [⟨"v", "V"⟩]⟩]⟩ []
      ⟨"b", "B", [], some "a", true⟩ = [] :=
  claim_c5_parent_gating ⟨[], [⟨"a", "x", "b", [⟨"v", "V"⟩]⟩]⟩ []
    ⟨"b", "B", [], some "a", true⟩ "a" rfl rfl

/-- Claim C8: bulk import never changes the selection snapshot: for every
config, store, starting selections, target id and input text, the selections
returned by handleImportOptions are exactly the starting ones, whether or
not any option was added. -/
theorem claim_c8_bulk_preserves_selections (config : List DropdownConfig) (store : DataStore)
    (sel : Selections) (activeId text : String) :
    (handleImportOptions config store sel activeId text).sel = sel := by
  unfold handleImportOptions
  split
  · rfl
  · split
    · rfl
    · dsimp only
      split
      · rfl
      · split <;> rfl

/-- Claim C10: handleSelection performs no membership validation: the store
is not even an argument of the function. The sentinel value leaves the
snapshot unchanged, and every other value, member of the resolved option
list or not, is committed to the dropdown entry of the snapshot. -/
theorem claim_c10_select_no_validation (config : List DropdownConfig) (rank : String → Nat)
    (fuel : Nat) (sel : Selections) (p : String)
    (hr : rankOkB config rank = true) :
    handleSelection config fuel sel p "__add_new__" = sel ∧
    ∀ v : String, v ≠ "__add_new__" →
      getSel (handleSelection config fuel sel p v) p = v := by
  constructor
  · simp [handleSelection]
  · intro v hv
    have hbeq : (v == "__add_new__") = false := beq_eq_false_iff_ne.mpr hv
    simp only [handleSelection, hbeq, Bool.false_eq_true, if_false]
    rw [getSel_clearSelections, if_neg (not_mem_fdd_self hr fuel p)]
    exact getSel_setSel_self sel p v

theorem claim_c10_select_no_validation_witness :
    handleSelection [⟨"a", "A", [⟨"x", "X"⟩], none, true⟩, ⟨"b", "B", [], some "a", true⟩]
        2 [("a", "x"), ("b", "w")] "a" "__add_new__" = [("a", "x"), ("b", "w")] ∧
    getSel (handleSelection [⟨"a", "A", [⟨"x", "X"⟩], none, true⟩,
        ⟨"b", "B", [], some "a", true⟩] 2 [("a", "x"), ("b", "w")] "a" "zzz") "a" = "zzz" :=
  have h := claim_c10_select_no_validation
    [⟨"a", "A", [⟨"x", "X"⟩], none, true⟩, ⟨"b", "B", [], some "a", true⟩]
    (fun s => if s == "a" then 1 else 0) 2 [("a", "x"), ("b", "w")] "a" (by decide)
  ⟨h.1, h.2 "zzz" (by decide)⟩

/-- Claim C1: cascade invariant. For a forest configuration (witnessed by a
rank function decreasing from parent to child), after handleSelection with a
non-sentinel value the snapshot maps the dropdown to that value and every id
the descendant traversal returns reads as the empty string, for every
starting snapshot, hence after any sequence of select calls, and
unconditionally in the store (the store plays no part). -/
theorem claim_c1_cascade (config : List DropdownConfig) (rank : String → Nat)
    (fuel : Nat) (sel : Selections) (p v : String)
    (hr : rankOkB config rank = true) (hv : v ≠ "__add_new__") :
    getSel (handleSelection config fuel sel p v) p = v ∧
    ∀ i ∈ findDependentDropdowns config fuel p,
      getSel (handleSelection config fuel sel p v) i = "" := by
  have hbeq : (v == "__add_new__") = false := beq_eq_false_iff_ne.mpr hv
  constructor
  · simp only [handleSelection, hbeq, Bool.false_eq_true, if_false]
    rw [getSel_clearSelections, if_neg (not_mem_fdd_self hr fuel p)]
    exact getSel_setSel_self sel p v
  · intro i hi
    simp only [handleSelection, hbeq, Bool.false_eq_true, if_false]
    rw [getSel_clearSelections, if_pos hi]

theorem claim_c1_cascade_witness :
    getSel (handleSelection [⟨"a", "A", [⟨"x", "X"⟩], none, true⟩,
        ⟨"b", "B", [], some "a", true⟩, ⟨"c", "C", [], some "b", true⟩] 3
        [("a", "x"), ("b", "y"), ("c", "z")] "a" "w") "a" = "w" ∧
    getSel (handleSelection [⟨"a", "A", [⟨"x", "X"⟩], none, true⟩,
        ⟨"b", "B", [], some "a", true⟩, ⟨"c", "C", [], some "b", true⟩] 3
        [("a", "x"), ("b", "y"), ("c", "z")] "a" "w") "c" = "" :=
  have h := claim_c1_cascade
    [⟨"a", "A", [⟨"x", "X"⟩], none, true⟩, ⟨"b", "B", [], some "a", true⟩,
      ⟨"c", "C", [], some "b", true⟩]
    (fun s => if s == "a" then 2 else if s == "b" then 1 else 0) 3
    [("a", "x"), ("b", "y"), ("c", "z")] "a" "w" (by decide) (by decide)
  ⟨h.1, h.2 "c" (by decide)⟩

/-- Claim C6 counterexample: on the cyclic configuration where a dropdown
depends on itself, the descendant traversal never stabilizes however much
fuel its recursion is unfolded with: the source recursion, which carries no
visited set, diverges instead of failing fast, and nothing rejects the
cyclic configuration at construction time. -/
theorem claim_c6_counterexample :
    ¬ ∃ N : Nat, ∀ n : Nat, N ≤ n →
        findDependentDropdowns cycCfg n "a" = findDependentDropdowns cycCfg N "a" := by
  rintro ⟨N, h⟩
  have h1 := congrArg List.length (h (N + 1) (by omega))
  rw [fdd_cyc_length, fdd_cyc_length] at h1
  omega

/-- Claim C6 amended: the descendant traversal has no cycle detection and
recurses unboundedly on a cyclic configuration; on a forest configuration
(witnessed by a rank function decreasing from parent to child) it does
terminate: the fuel-indexed unfoldings agree from the rank of the starting
dropdown onwards. -/
theorem claim_c6_amended (config : List DropdownConfig) (rank : String → Nat)
    (hr : rankOkB config rank = true) (p : String) (n m : Nat)
    (hn : rank p ≤ n) (hm : rank p ≤ m) :
    findDependentDropdowns config n p = findDependentDropdowns config m p :=
  (fdd_canon hr (rank p) p rfl n hn).trans (fdd_canon hr (rank p) p rfl m hm).symm

theorem claim_c6_amended_witness :
    findDependentDropdowns [⟨"a", "A", [⟨"x", "X"⟩], none, true⟩,
        ⟨"b", "B", [], some "a", true⟩, ⟨"c", "C", [], some "b", true⟩] 5 "a"
      = findDependentDropdowns [⟨"a", "A", [⟨"x", "X"⟩], none, true⟩,
        ⟨"b", "B", [], some "a", true⟩, ⟨"c", "C", [], some "b", true⟩] 2 "a" :=
  claim_c6_amended
    [⟨"a", "A", [⟨"x", "X"⟩], none, true⟩, ⟨"b", "B", [], some "a", true⟩,
      ⟨"c", "C", [], some "b", true⟩]
    (fun s => if s == "a" then 2 else if s == "b" then 1 else 0)
    (by decide) "a" 5 2 (by decide) (by decide)

theorem appendRootOption_relations (store : DataStore) (activeId : String)
    (o : DropdownOption) : (appendRootOption store activeId o).relations = store.relations := by
  unfold appendRootOption
  cases lookupOptions store.options activeId <;> rfl

/-- Claim C7: default initialization. Once any selection key exists the
effect is a no-op; on the empty snapshot every root dropdown whose resolved
option list is non-empty receives the first option value, and dependent
dropdowns are never auto-selected. Ids are assumed unique across the
configuration, as the data model requires. -/
theorem claim_c7_initialize_defaults (config : List DropdownConfig) (store : DataStore)
    (hnodup : (config.map (fun x => x.id)).Nodup) :
    (∀ sel : Selections, sel ≠ [] → initializeDefaults config store sel = sel) ∧
    (∀ d ∈ config, d.dependsOn = none →
      ∀ (o : DropdownOption) (os : List DropdownOption), rootOptsFor store d = o :: os →
        getSel (initializeDefaults config store []) d.id = o.value) ∧
    (∀ d ∈ config, d.dependsOn ≠ none →
      getSel (initializeDefaults config store []) d.id = "") := by
  have hrun : initializeDefaults config store [] = config.foldl (initStep store) [] := by
    simp [initializeDefaults]
  refine ⟨?_, ?_, ?_⟩
  · intro sel hsel
    have hlen : sel.length ≠ 0 := fun h => hsel (List.length_eq_zero.mp h)
    have hb : (sel.length != 0) = true := bne_iff_ne.mpr hlen
    simp [initializeDefaults, hb]
  · intro d hd hdep o os hro
    rw [hrun]
    exact getSel_foldl_initStep_set store config [] d o os hd hdep hro hnodup
  · intro d hd hdep
    rw [hrun, getSel_foldl_initStep_of_skip store d.id config [] ?hsk]
    · rfl
    case hsk =>
      intro d' hd' hid
      exact Or.inl ((List.inj_on_of_nodup_map hnodup hd' hd hid) ▸ hdep)

theorem claim_c7_initialize_defaults_witness :
    initializeDefaults [⟨"a", "A", [⟨"x", "X"⟩], none, true⟩,
        ⟨"b", "B", [], some "a", true⟩] ⟨[("a", [⟨"x", "X"⟩]), ("b", [])], []⟩
        [("a", "q")] = [("a", "q")] ∧
    getSel (initializeDefaults [⟨"a", "A", [⟨"x", "X"⟩], none, true⟩,
        ⟨"b", "B", [], some "a", true⟩] ⟨[("a", [⟨"x", "X"⟩]), ("b", [])], []⟩ [])
        "a" = "x" ∧
    getSel (initializeDefaults [⟨"a", "A", [⟨"x", "X"⟩], none, true⟩,
        ⟨"b", "B", [], some "a", true⟩] ⟨[("a", [⟨"x", "X"⟩]), ("b", [])], []⟩ [])
        "b" = "" :=
  have h := claim_c7_initialize_defaults
    [⟨"a", "A", [⟨"x", "X"⟩], none, true⟩, ⟨"b", "B", [], some "a", true⟩]
    ⟨[("a", [⟨"x", "X"⟩]), ("b", [])], []⟩ (by decide)
  ⟨h.1 [("a", "q")] (by decide),
   h.2.1 ⟨"a", "A", [⟨"x", "X"⟩], none, true⟩ (by decide) rfl ⟨"x", "X"⟩ [] (by decide),
   h.2.2 ⟨"b", "B", [], some "a", true⟩ (by decide) (by decide)⟩

/-- Claim C9 counterexample: bulk import of whitespace-only text is a silent
no-op: the blank-text guard returns before the notification branch, so no
EmptyImport failure is reported, contradicting the claim that the failure is
reported. -/
theorem claim_c9_counterexample :
    (handleImportOptions [⟨"b", "B", [], none, true⟩] ⟨[("b", [])], []⟩ [] "b"
        "   \n  \n")
      = ⟨⟨[("b", [])], []⟩, [], none, [], []⟩ ∧
    (handleImportOptions [⟨"b", "B", [], none, true⟩] ⟨[("b", [])], []⟩ [] "b"
        "   \n  \n").notice ≠ some Notice.emptyImport := by
  decide

/-- Claim C9 amended: for every input text whose trim is empty — exactly the
texts with no non-blank lines — bulk import performs no store mutation and no
selection change, but emits no notification either: the call returns
silently before the EmptyImport branch can run. -/
theorem claim_c9_amended (config : List DropdownConfig) (store : DataStore) (sel : Selections)
    (activeId text : String) (h : strTrim text = "") :
    handleImportOptions config store sel activeId text = ⟨store, sel, none, [], []⟩ := by
  simp [handleImportOptions, h]

theorem claim_c9_amended_witness :
    handleImportOptions [⟨"b", "B", [], none, true⟩] ⟨[("b", [])], []⟩ [] "b" "   \n  \n"
      = ⟨⟨[("b", [])], []⟩, [], none, [], []⟩ :=
  claim_c9_amended [⟨"b", "B", [], none, true⟩] ⟨[("b", [])], []⟩ [] "b" "   \n  \n"
    (by decide)

/-- Claim C4 counterexample: in the store whose dropdown a holds the option
with value opt1 and label Apple, single-adding the label Apple succeeds and
mutates the store, although the label matches an existing label exactly:
the single-add duplicate check never looks at labels, so the claim that a
label match fails with AlreadyExists is false. -/
theorem claim_c4_counterexample :
    (saveNewOption [⟨"a", "A", [], none, true⟩] 1 ⟨[("a", [⟨"opt1", "Apple"⟩])], []⟩ []
        "a" "Apple").err = none ∧
    (saveNewOption [⟨"a", "A", [], none, true⟩] 1 ⟨[("a", [⟨"opt1", "Apple"⟩])], []⟩ []
        "a" "Apple").store ≠ ⟨[("a", [⟨"opt1", "Apple"⟩])], []⟩ := by
  decide

/-- Claim C4 amended: single-add duplicate detection is case-insensitive on
the derived value only: whenever some existing option of the resolved
context matches the derived value ignoring case, saveNewOption fails with
AlreadyExists and returns the store and selections unchanged. Labels are not
consulted by the single-add check (unlike the bulk-import check). -/
theorem claim_c4_amended (config : List DropdownConfig) (fuel : Nat) (store : DataStore)
    (sel : Selections) (activeId name : String) (d : DropdownConfig)
    (hfind : config.find? (fun c => c.id == activeId) = some d)
    (htrim : strTrim name ≠ "")
    (hdup : ((getDropdownOptions store sel d).any (fun opt =>
        strToLower opt.value == strToLower (collapseWs (strTrim name)))) = true) :
    saveNewOption config fuel store sel activeId name
      = ⟨store, sel, some AddError.alreadyExists⟩ := by
  have hbt : (strTrim name == "") = false := beq_eq_false_iff_ne.mpr htrim
  simp [saveNewOption, hbt, hfind, hdup]

theorem claim_c4_amended_witness :
    saveNewOption [⟨"a", "A", [], none, true⟩] 1 ⟨[("a", [⟨"apple", "apple"⟩])], []⟩ []
        "a" "Apple"
      = ⟨⟨[("a", [⟨"apple", "apple"⟩])], []⟩, [], some AddError.alreadyExists⟩ :=
  claim_c4_amended [⟨"a", "A", [], none, true⟩] 1 ⟨[("a", [⟨"apple", "apple"⟩])], []⟩ []
    "a" "Apple" ⟨"a", "A", [], none, true⟩ (by decide) (by decide) (by decide)

/-- Claim C3 counterexample: bulk-importing the two identical lines Red and
Red into the root dropdown a, which has the dependent child b, pushes the
empty child relation for the triple a, Red, b twice: the store does contain
two relation entries with the same parent, parentValue and child, so the
uniqueness claim is false. -/
theorem claim_c3_counterexample :
    ((handleImportOptions [⟨"a", "A", [], none, true⟩, ⟨"b", "B", [], some "a", true⟩]
          ⟨[("a", []), ("b", [])], []⟩ [] "a" "Red\nRed").store.relations.filter
        (fun r => r.parent == "a" && r.parentValue == "Red" && r.child == "b")).length = 2 ∧
    ¬ ((handleImportOptions [⟨"a", "A", [], none, true⟩, ⟨"b", "B", [], some "a", true⟩]
          ⟨[("a", []), ("b", [])], []⟩ [] "a" "Red\nRed").store.relations.filter
        (fun r => r.parent == "a" && r.parentValue == "Red" && r.child == "b")).length ≤ 1 := by
  decide

/-- Claim C3 amended: child contexts are created unconditionally, not only
when absent: a successful single add on a root dropdown appends one empty
relation per direct child to the relation list, with no existence check, so
an already present triple is duplicated rather than skipped. -/
theorem claim_c3_amended (config : List DropdownConfig) (fuel : Nat) (store : DataStore)
    (sel : Selections) (activeId name : String) (d : DropdownConfig)
    (hfind : config.find? (fun c => c.id == activeId) = some d)
    (htrim : strTrim name ≠ "")
    (hdep : d.dependsOn = none)
    (hnotdup : ((getDropdownOptions store sel d).any (fun opt =>
        strToLower opt.value == strToLower (collapseWs (strTrim name)))) = false) :
    (saveNewOption config fuel store sel activeId name).err = none ∧
    (saveNewOption config fuel store sel activeId name).store.relations
      = store.relations ++ (config.filter (fun c => c.dependsOn == some activeId)).map
          (fun c => (⟨activeId, collapseWs (strTrim name), c.id, []⟩ : DropdownRelation)) := by
  have hbt : (strTrim name == "") = false := beq_eq_false_iff_ne.mpr htrim
  constructor
  · simp [saveNewOption, hbt, hfind, hnotdup, hdep]
  · simp only [saveNewOption, hbt, Bool.false_eq_true, if_false, hfind, hnotdup, hdep]
    simp [appendEmptyChildRelations, appendRootOption_relations]

theorem claim_c3_amended_witness :
    (saveNewOption [⟨"a", "A", [], none, true⟩, ⟨"b", "B", [], some "a", true⟩] 2
        ⟨[("a", []), ("b", [])], [⟨"a", "Foo", "b", []⟩]⟩ [] "a" "Foo").err = none ∧
    (saveNewOption [⟨"a", "A", [], none, true⟩, ⟨"b", "B", [], some "a", true⟩] 2
        ⟨[("a", []), ("b", [])], [⟨"a", "Foo", "b", []⟩]⟩ [] "a" "Foo").store.relations
      = [⟨"a", "Foo", "b", []⟩] ++ [⟨"a", "Foo", "b", []⟩] :=
  have h := claim_c3_amended [⟨"a", "A", [], none, true⟩, ⟨"b", "B", [], some "a", true⟩] 2
    ⟨[("a", []), ("b", [])], [⟨"a", "Foo", "b", []⟩]⟩ [] "a" "Foo"
    ⟨"a", "A", [], none, true⟩ (by decide) (by decide) rfl (by decide)
  ⟨h.1, by rw [h.2]; decide⟩

/-- Claim C2 counterexample: importing the lines Red, red, Blue into an
empty context adds all three and reports no duplicates: the duplicate check
compares each line only against the option list captured before the batch,
so the second line, red, is not rejected against the first; the claimed
outcome of two additions with red as duplicate is false. -/
theorem claim_c2_counterexample :
    ((handleImportOptions [⟨"b", "B", [], none, true⟩] ⟨[("b", [])], []⟩ [] "b"
        "Red\nred\nBlue").added = ["Red", "red", "Blue"] ∧
     (handleImportOptions [⟨"b", "B", [], none, true⟩] ⟨[("b", [])], []⟩ [] "b"
        "Red\nred\nBlue").duplicates = []) ∧
    ¬ ((handleImportOptions [⟨"b", "B", [], none, true⟩] ⟨[("b", [])], []⟩ [] "b"
        "Red\nred\nBlue").added.length = 2 ∧
       (handleImportOptions [⟨"b", "B", [], none, true⟩] ⟨[("b", [])], []⟩ [] "b"
        "Red\nred\nBlue").duplicates = ["red"]) := by
  decide

/-- Claim C2 amended: the bulk-import duplicate check runs against the
option set as it stood before the batch started only: the duplicates are
exactly the lines matching the pre-batch resolved option list
case-insensitively on derived value or label, and the added lines are
exactly the remaining lines with an authorable context — a line duplicating
only an earlier line of the same batch is accepted, not rejected. -/
theorem claim_c2_amended (config : List DropdownConfig) (store : DataStore) (sel : Selections)
    (activeId text : String) (d : DropdownConfig)
    (hfind : config.find? (fun c => c.id == activeId) = some d)
    (htrim : strTrim text ≠ "") :
    (handleImportOptions config store sel activeId text).duplicates
        = ((importLines text).filter (dupPred (getDropdownOptions store sel d))).map strTrim ∧
    (handleImportOptions config store sel activeId text).added
        = ((importLines text).filter
            (addPredB d sel (getDropdownOptions store sel d))).map strTrim := by
  have hbt : (strTrim text == "") = false := beq_eq_false_iff_ne.mpr htrim
  obtain ⟨h1, h2⟩ := bulk_foldl_proj config d sel (getDropdownOptions store sel d)
    (importLines text) store [] []
  rw [List.nil_append] at h1 h2
  cases hlen : ((importLines text).length == 0) with
  | true =>
    have hnil : importLines text = [] :=
      List.length_eq_zero.mp (beq_iff_eq.mp hlen)
    constructor <;> simp [handleImportOptions, hbt, hfind, hlen, hnil]
  | false =>
    cases hadd : ((((importLines text).foldl
        (bulkStep config d sel (getDropdownOptions store sel d))
        (store, [], [])).2.1).length == 0) with
    | true =>
      have hempty : ((importLines text).filter
          (addPredB d sel (getDropdownOptions store sel d))).map strTrim = [] := by
        have hz := beq_iff_eq.mp hadd
        rw [h1] at hz
        exact List.length_eq_zero.mp hz
      have hres : handleImportOptions config store sel activeId text
          = ⟨store, sel, some Notice.noNewOptions, [],
             (((importLines text).foldl
               (bulkStep config d sel (getDropdownOptions store sel d))
               (store, [], [])).2.2)⟩ := by
        simp [handleImportOptions, hbt, hfind, hlen, hadd]
      rw [hres]
      exact ⟨h2, hempty.symm⟩
    | false =>
      have hres : handleImportOptions config store sel activeId text
          = ⟨(((importLines text).foldl
               (bulkStep config d sel (getDropdownOptions store sel d))
               (store, [], []))).1, sel, some Notice.imported,
             (((importLines text).foldl
               (bulkStep config d sel (getDropdownOptions store sel d))
               (store, [], []))).2.1,
             (((importLines text).foldl
               (bulkStep config d sel (getDropdownOptions store sel d))
               (store, [], []))).2.2⟩ := by
        simp [handleImportOptions, hbt, hfind, hlen, hadd]
      rw [hres]
      exact ⟨h2, h1⟩

theorem claim_c2_amended_witness :
    (handleImportOptions [⟨"b", "B", [⟨"Blue", "Blue"⟩], none, true⟩]
        ⟨[("b", [⟨"Blue", "Blue"⟩])], []⟩ [] "b" "Red\nred\nBlue").duplicates
      = ((importLines "Red\nred\nBlue").filter
          (dupPred (getDropdownOptions ⟨[("b", [⟨"Blue", "Blue"⟩])], []⟩ []
            ⟨"b", "B", [⟨"Blue", "Blue"⟩], none, true⟩))).map strTrim ∧
    (handleImportOptions [⟨"b", "B", [⟨"Blue", "Blue"⟩], none, true⟩]
        ⟨[("b", [⟨"Blue", "Blue"⟩])], []⟩ [] "b" "Red\nred\nBlue").added
      = ((importLines "Red\nred\nBlue").filter
          (addPredB ⟨"b", "B", [⟨"Blue", "Blue"⟩], none, true⟩ []
            (getDropdownOptions ⟨[("b", [⟨"Blue", "Blue"⟩])], []⟩ []
              ⟨"b", "B", [⟨"Blue", "Blue"⟩], none, true⟩))).map strTrim :=
  claim_c2_amended [⟨"b", "B", [⟨"Blue", "Blue"⟩], none, true⟩]
    ⟨[("b", [⟨"Blue", "Blue"⟩])], []⟩ [] "b" "Red\nred\nBlue"
    ⟨"b", "B", [⟨"Blue", "Blue"⟩], none, true⟩ (by decide) (by decide)
